import Mathlib

/-!
Shallow embedding of `dataikuapi/dss/project.py` (class `DSSProject`):
a thin REST-client binding in which every method issues at most one HTTP
request through a shared transport client and maps the response.

Modelling choices:
* Dynamically typed JSON payloads are the inductive `JValue`; Python dicts
  are `JValue.obj` association lists, and `res["id"]` is `JValue.get?`,
  which returns `none` exactly when Python raises `KeyError`.
* The transport (`DSSClient`) is a record of the three operations the code
  uses: `_perform_json`, `_perform_empty`, `_perform_raw`. Each takes a
  `Request` (method, path, optional JSON body) and either succeeds or fails
  with a `DSSError`; a failing transport call makes the Python method raise,
  which the embedding renders as `Except.error` carrying the same error value.
* Every `DSSProject` method is a pure function of the (immutable) handle and
  its arguments, returning the list of requests it issued (its trace) paired
  with its result. Purely local constructors such as `get_dataset` have an
  empty trace.
* `export_to_file` additionally returns the final state of the local file:
  the Python `with open(path, "w")` creates/truncates the file before the
  GET and closes it on every exit path. A possibly failing chunk write is
  modelled by an optional index of the first failing write.
-/

/-- A JSON value, as carried by the dynamically typed Python payloads. -/
inductive JValue where
  | null : JValue
  | bool (b : Bool) : JValue
  | num (n : Int) : JValue
  | str (s : String) : JValue
  | arr (xs : List JValue) : JValue
  | obj (fields : List (String × JValue)) : JValue

/-- Dictionary lookup: Python `d[k]` succeeds iff this returns `some`. -/
def JValue.get? : JValue → String → Option JValue
  | .obj fields, k => fields.lookup k
  | _, _ => none

/-- An HTTP request as assembled by the client: verb, path, optional JSON body. -/
structure Request where
  method : String
  path : String
  body : Option JValue

/-- The errors a call can raise: transport-level failures (non-2xx status,
connection loss, JSON decoding) plus the client-side Python errors that
`DSSProject` itself can produce (`KeyError` on a missing response field,
an OS error while writing the export file). -/
inductive DSSError where
  | httpError (status : Nat) (msg : String) : DSSError
  | connectionError (msg : String) : DSSError
  | jsonDecodeError (msg : String) : DSSError
  | keyError (key : String) : DSSError
  | ioError (msg : String) : DSSError
deriving DecidableEq

/-- The shared transport client, reduced to the three operations the core
uses. `performRaw` yields the chunks that `iter_content` produces; the raw
stream content is their concatenation. -/
structure DSSClient where
  performJSON : Request → Except DSSError JValue
  performEmpty : Request → Except DSSError Unit
  performRaw : Request → Except DSSError (List (List Nat))

/-- The `DSSProject` handle: a transport reference plus the project key. -/
structure DSSProject where
  client : DSSClient
  project_key : String

/-- Handle to a dataset (`DSSDataset(client, project_key, dataset_name)`). -/
structure DSSDataset where
  client : DSSClient
  project_key : String
  dataset_name : JValue

/-- Handle to a managed folder (`DSSManagedFolder(client, project_key, odb_id)`). -/
structure DSSManagedFolder where
  client : DSSClient
  project_key : String
  odb_id : JValue

/-- Handle to a job (`DSSJob(client, project_key, id)`). -/
structure DSSJob where
  client : DSSClient
  project_key : String
  job_id : JValue

/-- Handle to a scenario (`DSSScenario(client, project_key, scenario_id)`). -/
structure DSSScenario where
  client : DSSClient
  project_key : String
  scenario_id : JValue

/-- Handle to an API service (`DSSAPIService(client, project_key, service_id)`). -/
structure DSSAPIService where
  client : DSSClient
  project_key : String
  service_id : JValue

namespace DSSProject

/-- The trace of a call paired with its outcome. -/
def Outcome (α : Type) : Type := List Request × Except DSSError α

/-- Python: `delete` issues one DELETE on `/projects/{key}`. -/
def delete (p : DSSProject) : Outcome Unit :=
  let req : Request := ⟨"DELETE", "/projects/" ++ p.project_key, none⟩
  ([req], p.client.performEmpty req)

/-- Python: `get_export_stream` issues one raw GET on `/projects/{key}/export`
and returns the raw stream (its chunks). -/
def get_export_stream (p : DSSProject) : Outcome (List (List Nat)) :=
  let req : Request := ⟨"GET", "/projects/" ++ p.project_key ++ "/export", none⟩
  ([req], p.client.performRaw req)

/-- Python: `get_metadata` issues one GET on `/projects/{key}/metadata`. -/
def get_metadata (p : DSSProject) : Outcome JValue :=
  let req : Request := ⟨"GET", "/projects/" ++ p.project_key ++ "/metadata", none⟩
  ([req], p.client.performJSON req)

/-- Python: `set_metadata` issues one PUT on `/projects/{key}/metadata` with
the given dict as body. -/
def set_metadata (p : DSSProject) (metadata : JValue) : Outcome Unit :=
  let req : Request := ⟨"PUT", "/projects/" ++ p.project_key ++ "/metadata", some metadata⟩
  ([req], p.client.performEmpty req)

/-- Python: `get_permissions` issues one GET on `/projects/{key}/permissions`. -/
def get_permissions (p : DSSProject) : Outcome JValue :=
  let req : Request := ⟨"GET", "/projects/" ++ p.project_key ++ "/permissions", none⟩
  ([req], p.client.performJSON req)

/-- Python: `set_permissions` issues one PUT on `/projects/{key}/permissions`
with the given dict as body. -/
def set_permissions (p : DSSProject) (permissions : JValue) : Outcome Unit :=
  let req : Request := ⟨"PUT", "/projects/" ++ p.project_key ++ "/permissions", some permissions⟩
  ([req], p.client.performEmpty req)

/-- Python: `list_datasets` issues one GET on `/projects/{key}/datasets/`. -/
def list_datasets (p : DSSProject) : Outcome JValue :=
  let req : Request := ⟨"GET", "/projects/" ++ p.project_key ++ "/datasets/", none⟩
  ([req], p.client.performJSON req)

/-- Python: `get_dataset` constructs a `DSSDataset` handle locally, issuing
no request. -/
def get_dataset (p : DSSProject) (dataset_name : JValue) : List Request × DSSDataset :=
  ([], ⟨p.client, p.project_key, dataset_name⟩)

/-- Python: `create_dataset` POSTs the dict
`{name, projectKey, type, params, formatType, formatParams}` to
`/projects/{key}/datasets/`; the response is ignored and the handle is built
from the supplied `dataset_name`. The Python defaults are `params={}`,
`formatType=None`, `formatParams={}`. -/
def create_dataset (p : DSSProject) (dataset_name type : JValue)
    (params formatType formatParams : JValue) : Outcome DSSDataset :=
  let obj : JValue := .obj [
    ("name", dataset_name),
    ("projectKey", .str p.project_key),
    ("type", type),
    ("params", params),
    ("formatType", formatType),
    ("formatParams", formatParams)]
  let req : Request := ⟨"POST", "/projects/" ++ p.project_key ++ "/datasets/", some obj⟩
  ([req],
    match p.client.performJSON req with
    | .error e => .error e
    | .ok _ => .ok ⟨p.client, p.project_key, dataset_name⟩)

/-- Python: `list_managed_folders` issues one GET on
`/projects/{key}/managedfolders/`. -/
def list_managed_folders (p : DSSProject) : Outcome JValue :=
  let req : Request := ⟨"GET", "/projects/" ++ p.project_key ++ "/managedfolders/", none⟩
  ([req], p.client.performJSON req)

/-- Python: `get_managed_folder` constructs a `DSSManagedFolder` handle
locally, issuing no request. -/
def get_managed_folder (p : DSSProject) (odb_id : JValue) : List Request × DSSManagedFolder :=
  ([], ⟨p.client, p.project_key, odb_id⟩)

/-- Python: `create_managed_folder` POSTs `{name, projectKey}` to
`/projects/{key}/managedfolders/`, reads `res["id"]` from the JSON response
(raising `KeyError` when absent) and builds the handle from it. -/
def create_managed_folder (p : DSSProject) (name : JValue) : Outcome DSSManagedFolder :=
  let obj : JValue := .obj [("name", name), ("projectKey", .str p.project_key)]
  let req : Request := ⟨"POST", "/projects/" ++ p.project_key ++ "/managedfolders/", some obj⟩
  ([req],
    match p.client.performJSON req with
    | .error e => .error e
    | .ok res =>
      match res.get? "id" with
      | none => .error (.keyError "id")
      | some v => .ok ⟨p.client, p.project_key, v⟩)

/-- Python: `list_jobs` issues one GET on `/projects/{key}/jobs/`. -/
def list_jobs (p : DSSProject) : Outcome JValue :=
  let req : Request := ⟨"GET", "/projects/" ++ p.project_key ++ "/jobs/", none⟩
  ([req], p.client.performJSON req)

/-- Python: `get_job` constructs a `DSSJob` handle locally, issuing no request. -/
def get_job (p : DSSProject) (job_id : JValue) : List Request × DSSJob :=
  ([], ⟨p.client, p.project_key, job_id⟩)

/-- Python: `start_job` POSTs the job definition verbatim to
`/projects/{key}/jobs/`, reads `job_def["id"]` from the JSON response
(raising `KeyError` when absent) and builds the handle from it. -/
def start_job (p : DSSProject) (definition : JValue) : Outcome DSSJob :=
  let req : Request := ⟨"POST", "/projects/" ++ p.project_key ++ "/jobs/", some definition⟩
  ([req],
    match p.client.performJSON req with
    | .error e => .error e
    | .ok job_def =>
      match job_def.get? "id" with
      | none => .error (.keyError "id")
      | some v => .ok ⟨p.client, p.project_key, v⟩)

/-- Python: `list_api_services` issues one GET on `/projects/{key}/apiservices/`. -/
def list_api_services (p : DSSProject) : Outcome JValue :=
  let req : Request := ⟨"GET", "/projects/" ++ p.project_key ++ "/apiservices/", none⟩
  ([req], p.client.performJSON req)

/-- Python: `get_api_service` constructs a `DSSAPIService` handle locally,
issuing no request. -/
def get_api_service (p : DSSProject) (service_id : JValue) : List Request × DSSAPIService :=
  ([], ⟨p.client, p.project_key, service_id⟩)

/-- Python: `list_scenarios` issues one GET on `/projects/{key}/scenarios/`. -/
def list_scenarios (p : DSSProject) : Outcome JValue :=
  let req : Request := ⟨"GET", "/projects/" ++ p.project_key ++ "/scenarios/", none⟩
  ([req], p.client.performJSON req)

/-- Python: `get_scenario` constructs a `DSSScenario` handle locally,
issuing no request. -/
def get_scenario (p : DSSProject) (scenario_id : JValue) : List Request × DSSScenario :=
  ([], ⟨p.client, p.project_key, scenario_id⟩)

/-- State of the local file written by `export_to_file`: whether it was
created (or truncated) by `open(path, "w")`, its byte content, and whether
it is closed. -/
structure FileState where
  created : Bool
  content : List Nat
  closed : Bool
deriving DecidableEq

/-- The loop body of `export_to_file`: writes each nonempty chunk in order
(`if chunk: f.write(chunk); f.flush()`). `failAt = some i` makes the i-th
attempted write raise; the pair returned is the bytes written so far and
whether the loop completed without raising. -/
def writeChunks : List (List Nat) → Option Nat → List Nat × Bool
  | [], _ => ([], true)
  | c :: rest, failAt =>
    if c = [] then
      writeChunks rest failAt
    else
      match failAt with
      | some 0 => ([], false)
      | some (n + 1) =>
        let r := writeChunks rest (some n)
        (c ++ r.1, r.2)
      | none =>
        let r := writeChunks rest none
        (c ++ r.1, r.2)

/-- Python: `export_to_file(path)` runs `with open(path, "w")` (creating or
truncating the file) and only then issues the raw GET on
`/projects/{key}/export`; it writes the streamed chunks in order and the
`with` block closes the file on every exit path. Returns the trace, the
final state of the file at `path`, and the call result; `path` selects which
local file the returned `FileState` describes and does not affect the
requests issued. -/
def export_to_file (p : DSSProject) (path : String) (failAt : Option Nat) :
    List Request × FileState × Except DSSError Unit :=
  let req : Request := ⟨"GET", "/projects/" ++ p.project_key ++ "/export", none⟩
  ([req],
    match p.client.performRaw req with
    | .error e => (⟨true, [], true⟩, .error e)
    | .ok chunks =>
      let r := writeChunks chunks failAt
      (⟨true, r.1, true⟩, if r.2 then .ok () else .error (.ioError "write")))

end DSSProject

namespace SpecClaims

open DSSProject

/-- Writing all chunks with no write failure produces exactly the
concatenation of the chunks, in stream order. -/
theorem writeChunks_none_eq (chunks : List (List Nat)) :
    writeChunks chunks none = (chunks.flatten, true) := by
  induction chunks with
  | nil => rfl
  | cons c rest ih =>
    by_cases h : c = []
    · subst h
      simpa [writeChunks] using ih
    · simp [writeChunks, h, ih]

/-- A transport stub that always succeeds: JSON calls return an object whose
"id" field is "F1", raw calls return three chunks (one of them empty). -/
def okClient : DSSClient where
  performJSON := fun _ => .ok (.obj [("id", .str "F1")])
  performEmpty := fun _ => .ok ()
  performRaw := fun _ => .ok [[1, 2], [], [3]]

/-- The fixed transport error raised by the failing stub. -/
def errE : DSSError := .httpError 500 "Internal Server Error"

/-- A transport stub that always fails with the error `errE`. -/
def errClient : DSSClient where
  performJSON := fun _ => .error errE
  performEmpty := fun _ => .error errE
  performRaw := fun _ => .error errE

/-- A transport stub whose successful JSON responses lack an "id" field. -/
def noIdClient : DSSClient where
  performJSON := fun _ => .ok (.obj [("name", .str "x")])
  performEmpty := fun _ => .ok ()
  performRaw := fun _ => .ok []

/-- A transport stub whose successful JSON responses carry the generated
identifier "GEN" in every field. -/
def genClient : DSSClient where
  performJSON := fun _ => .ok (.obj [("id", .str "GEN"), ("name", .str "GEN")])
  performEmpty := fun _ => .ok ()
  performRaw := fun _ => .ok []

/-- C5: for every project key and identifier, get_dataset, get_managed_folder,
get_job, get_scenario and get_api_service return a handle holding exactly the
given identifier together with the key and client of the project, and issue
no network request (empty trace). -/
theorem C5_get_constructors_local (c : DSSClient) (key : String) (v : JValue) :
    get_dataset ⟨c, key⟩ v = ([], ⟨c, key, v⟩) ∧
    get_managed_folder ⟨c, key⟩ v = ([], ⟨c, key, v⟩) ∧
    get_job ⟨c, key⟩ v = ([], ⟨c, key, v⟩) ∧
    get_scenario ⟨c, key⟩ v = ([], ⟨c, key, v⟩) ∧
    get_api_service ⟨c, key⟩ v = ([], ⟨c, key, v⟩) :=
  ⟨rfl, rfl, rfl, rfl, rfl⟩

/-- C6: set_metadata and set_permissions each issue exactly one PUT request
with the given dict, unmodified, as the body, and a transport failure is
propagated to the caller unchanged (no local retry: the trace is one request
in every case). -/
theorem C6_put_once_and_propagate (c : DSSClient) (key : String) (e : DSSError) :
    (∀ metadata : JValue, (set_metadata ⟨c, key⟩ metadata).1 =
      [⟨"PUT", "/projects/" ++ key ++ "/metadata", some metadata⟩]) ∧
    (∀ metadata : JValue,
      c.performEmpty ⟨"PUT", "/projects/" ++ key ++ "/metadata", some metadata⟩ = .error e →
      (set_metadata ⟨c, key⟩ metadata).2 = .error e) ∧
    (∀ permissions : JValue, (set_permissions ⟨c, key⟩ permissions).1 =
      [⟨"PUT", "/projects/" ++ key ++ "/permissions", some permissions⟩]) ∧
    (∀ permissions : JValue,
      c.performEmpty ⟨"PUT", "/projects/" ++ key ++ "/permissions", some permissions⟩ = .error e →
      (set_permissions ⟨c, key⟩ permissions).2 = .error e) :=
  ⟨fun _ => rfl, fun _ h => h, fun _ => rfl, fun _ h => h⟩

/-- Witness for C6 at a concrete failing transport. -/
theorem C6_witness :
    (set_metadata ⟨errClient, "P"⟩ (.obj [])).2 = .error errE ∧
    (set_permissions ⟨errClient, "P"⟩ (.obj [])).2 = .error errE :=
  ⟨(C6_put_once_and_propagate errClient "P" errE).2.1 (.obj []) rfl,
   (C6_put_once_and_propagate errClient "P" errE).2.2.2 (.obj []) rfl⟩

/-- C2: with the Python default arguments (params={}, formatType=None,
formatParams={}), create_dataset issues exactly one POST whose body holds the
supplied name, the supplied type, the project key and the empty parameter and
format fields, and on a successful remote call returns a DSSDataset handle
whose name equals the input name. -/
theorem C2_create_dataset_post (c : DSSClient) (key : String) (dataset_name type : JValue) :
    (create_dataset ⟨c, key⟩ dataset_name type (.obj []) .null (.obj [])).1 =
      [⟨"POST", "/projects/" ++ key ++ "/datasets/",
        some (.obj [("name", dataset_name), ("projectKey", .str key), ("type", type),
          ("params", .obj []), ("formatType", .null), ("formatParams", .obj [])])⟩] ∧
    (∀ r : JValue,
      c.performJSON ⟨"POST", "/projects/" ++ key ++ "/datasets/",
        some (.obj [("name", dataset_name), ("projectKey", .str key), ("type", type),
          ("params", .obj []), ("formatType", .null), ("formatParams", .obj [])])⟩ = .ok r →
      (create_dataset ⟨c, key⟩ dataset_name type (.obj []) .null (.obj [])).2 =
        .ok ⟨c, key, dataset_name⟩) := by
  refine ⟨rfl, fun r h => ?_⟩
  simp only [create_dataset]
  rw [h]

/-- Witness for C2 at a concrete succeeding transport. -/
theorem C2_witness :
    (create_dataset ⟨okClient, "P"⟩ (.str "ds1") (.str "Filesystem") (.obj []) .null
      (.obj [])).2 = .ok ⟨okClient, "P", .str "ds1"⟩ :=
  (C2_create_dataset_post okClient "P" (.str "ds1") (.str "Filesystem")).2
    (.obj [("id", .str "F1")]) rfl

/-- C3: create_managed_folder issues exactly one POST (body {name, projectKey})
and, when the successful response carries an "id" field, returns a handle whose
identifier equals that value; start_job issues exactly one POST whose body is
the given definition dict unmodified and likewise returns a handle whose
identifier equals the "id" field of the response. -/
theorem C3_folder_and_job_posts (c : DSSClient) (key : String) :
    (∀ name : JValue, (create_managed_folder ⟨c, key⟩ name).1 =
      [⟨"POST", "/projects/" ++ key ++ "/managedfolders/",
        some (.obj [("name", name), ("projectKey", .str key)])⟩]) ∧
    (∀ (name r v : JValue),
      c.performJSON ⟨"POST", "/projects/" ++ key ++ "/managedfolders/",
        some (.obj [("name", name), ("projectKey", .str key)])⟩ = .ok r →
      r.get? "id" = some v →
      (create_managed_folder ⟨c, key⟩ name).2 = .ok ⟨c, key, v⟩) ∧
    (∀ definition : JValue, (start_job ⟨c, key⟩ definition).1 =
      [⟨"POST", "/projects/" ++ key ++ "/jobs/", some definition⟩]) ∧
    (∀ (definition r v : JValue),
      c.performJSON ⟨"POST", "/projects/" ++ key ++ "/jobs/", some definition⟩ = .ok r →
      r.get? "id" = some v →
      (start_job ⟨c, key⟩ definition).2 = .ok ⟨c, key, v⟩) := by
  refine ⟨fun name => rfl, fun name r v h1 h2 => ?_, fun d => rfl, fun d r v h1 h2 => ?_⟩
  · simp only [create_managed_folder, h1, h2]
  · simp only [start_job, h1, h2]

/-- Witness for C3 at a concrete succeeding transport. -/
theorem C3_witness :
    (create_managed_folder ⟨okClient, "P"⟩ (.str "folder")).2 =
      .ok ⟨okClient, "P", .str "F1"⟩ ∧
    (start_job ⟨okClient, "P"⟩ (.obj [("type", .str "RECURSIVE_BUILD")])).2 =
      .ok ⟨okClient, "P", .str "F1"⟩ :=
  ⟨(C3_folder_and_job_posts okClient "P").2.1 (.str "folder")
      (.obj [("id", .str "F1")]) (.str "F1") rfl rfl,
   (C3_folder_and_job_posts okClient "P").2.2.2 (.obj [("type", .str "RECURSIVE_BUILD")])
      (.obj [("id", .str "F1")]) (.str "F1") rfl rfl⟩

/-- C1 counterexample: with a transport whose successful response to the
dataset-creation POST is the object with "id" and "name" both "GEN",
create_dataset still returns a handle named by the caller-supplied "ds1".
The generated identifier "GEN" present in the response is therefore not what
the returned handle is built from, refuting the claim for create_dataset. -/
theorem C1_counterexample :
    (create_dataset ⟨genClient, "P"⟩ (.str "ds1") (.str "t") (.obj []) .null (.obj [])).2 =
      .ok ⟨genClient, "P", .str "ds1"⟩ ∧
    genClient.performJSON
      ⟨"POST", "/projects/P/datasets/",
        some (.obj [("name", .str "ds1"), ("projectKey", .str "P"), ("type", .str "t"),
          ("params", .obj []), ("formatType", .null), ("formatParams", .obj [])])⟩ =
      .ok (.obj [("id", .str "GEN"), ("name", .str "GEN")]) ∧
    (JValue.obj [("id", .str "GEN"), ("name", .str "GEN")]).get? "id" = some (.str "GEN") ∧
    JValue.str "ds1" ≠ JValue.str "GEN" := by
  refine ⟨rfl, rfl, rfl, fun h => ?_⟩
  injection h with h
  exact absurd h (by decide)

/-- C1 (amended): create_managed_folder and start_job extract the generated
identifier from the "id" field of the HTTP response and return a handle built
from it, while create_dataset builds its returned handle from the
caller-supplied dataset name without reading the response; all three
operations fail with the transport error propagated unchanged whenever the
remote call fails. -/
theorem C1_amended_create_ops (c : DSSClient) (key : String) (e : DSSError) :
    (∀ n t pa fT fP : JValue,
      c.performJSON ⟨"POST", "/projects/" ++ key ++ "/datasets/",
        some (.obj [("name", n), ("projectKey", .str key), ("type", t),
          ("params", pa), ("formatType", fT), ("formatParams", fP)])⟩ = .error e →
      (create_dataset ⟨c, key⟩ n t pa fT fP).2 = .error e) ∧
    (∀ n t pa fT fP r : JValue,
      c.performJSON ⟨"POST", "/projects/" ++ key ++ "/datasets/",
        some (.obj [("name", n), ("projectKey", .str key), ("type", t),
          ("params", pa), ("formatType", fT), ("formatParams", fP)])⟩ = .ok r →
      (create_dataset ⟨c, key⟩ n t pa fT fP).2 = .ok ⟨c, key, n⟩) ∧
    (∀ name : JValue,
      c.performJSON ⟨"POST", "/projects/" ++ key ++ "/managedfolders/",
        some (.obj [("name", name), ("projectKey", .str key)])⟩ = .error e →
      (create_managed_folder ⟨c, key⟩ name).2 = .error e) ∧
    (∀ name r v : JValue,
      c.performJSON ⟨"POST", "/projects/" ++ key ++ "/managedfolders/",
        some (.obj [("name", name), ("projectKey", .str key)])⟩ = .ok r →
      r.get? "id" = some v →
      (create_managed_folder ⟨c, key⟩ name).2 = .ok ⟨c, key, v⟩) ∧
    (∀ d : JValue,
      c.performJSON ⟨"POST", "/projects/" ++ key ++ "/jobs/", some d⟩ = .error e →
      (start_job ⟨c, key⟩ d).2 = .error e) ∧
    (∀ d r v : JValue,
      c.performJSON ⟨"POST", "/projects/" ++ key ++ "/jobs/", some d⟩ = .ok r →
      r.get? "id" = some v →
      (start_job ⟨c, key⟩ d).2 = .ok ⟨c, key, v⟩) := by
  refine ⟨fun n t pa fT fP h => ?_, fun n t pa fT fP r h => ?_, fun name h => ?_,
    fun name r v h1 h2 => ?_, fun d h => ?_, fun d r v h1 h2 => ?_⟩
  · simp only [create_dataset, h]
  · simp only [create_dataset, h]
  · simp only [create_managed_folder, h]
  · simp only [create_managed_folder, h1, h2]
  · simp only [start_job, h]
  · simp only [start_job, h1, h2]

/-- Witness for the amended C1 at concrete transports. -/
theorem C1_witness :
    (create_dataset ⟨errClient, "P"⟩ (.str "d") (.str "t") (.obj []) .null (.obj [])).2 =
      .error errE ∧
    (create_managed_folder ⟨okClient, "P"⟩ (.str "f")).2 = .ok ⟨okClient, "P", .str "F1"⟩ ∧
    (start_job ⟨okClient, "P"⟩ (.obj [])).2 = .ok ⟨okClient, "P", .str "F1"⟩ :=
  ⟨(C1_amended_create_ops errClient "P" errE).1 (.str "d") (.str "t")
      (.obj []) .null (.obj []) rfl,
   (C1_amended_create_ops okClient "P" errE).2.2.2.1 (.str "f")
      (.obj [("id", .str "F1")]) (.str "F1") rfl rfl,
   (C1_amended_create_ops okClient "P" errE).2.2.2.2.2 (.obj [])
      (.obj [("id", .str "F1")]) (.str "F1") rfl rfl⟩

/-- C4: on a successful raw GET, export_to_file writes the concatenation of
all streamed chunks, in stream order, to the file at the given path,
byte-for-byte the content of the raw stream, and the file is closed when the
call finishes on every execution, including those where a chunk write raises
or the transport fails. -/
theorem C4_export_writes_stream (c : DSSClient) (key path : String)
    (chunks : List (List Nat)) :
    (c.performRaw ⟨"GET", "/projects/" ++ key ++ "/export", none⟩ = .ok chunks →
      (export_to_file ⟨c, key⟩ path none).2.1 = ⟨true, chunks.flatten, true⟩ ∧
      (export_to_file ⟨c, key⟩ path none).2.2 = .ok ()) ∧
    (∀ failAt : Option Nat, ((export_to_file ⟨c, key⟩ path failAt).2.1).closed = true) := by
  constructor
  · intro h
    constructor
    · simp [export_to_file, h, writeChunks_none_eq]
    · simp [export_to_file, h, writeChunks_none_eq]
  · intro failAt
    cases hr : c.performRaw ⟨"GET", "/projects/" ++ key ++ "/export", none⟩ with
    | error e => simp [export_to_file, hr]
    | ok chs => simp [export_to_file, hr]

/-- Witness for C4 at a concrete transport streaming chunks [1,2], [], [3]. -/
theorem C4_witness :
    (export_to_file ⟨okClient, "P"⟩ "out.zip" none).2.1 = ⟨true, [1, 2, 3], true⟩ ∧
    ((export_to_file ⟨okClient, "P"⟩ "out.zip" (some 0)).2.1).closed = true :=
  ⟨((C4_export_writes_stream okClient "P" "out.zip" [[1, 2], [], [3]]).1 rfl).1,
   (C4_export_writes_stream okClient "P" "out.zip" [[1, 2], [], [3]]).2 (some 0)⟩

/-- C7: for every DSSProject operation that performs an HTTP call, when the
transport fails the operation returns that same error, unmodified, and no
handle or dict is produced. -/
theorem C7_transport_errors_propagate (c : DSSClient) (key : String) (e : DSSError) :
    (c.performEmpty ⟨"DELETE", "/projects/" ++ key, none⟩ = .error e →
      (delete ⟨c, key⟩).2 = .error e) ∧
    (c.performRaw ⟨"GET", "/projects/" ++ key ++ "/export", none⟩ = .error e →
      (get_export_stream ⟨c, key⟩).2 = .error e) ∧
    (∀ (path : String) (failAt : Option Nat),
      c.performRaw ⟨"GET", "/projects/" ++ key ++ "/export", none⟩ = .error e →
      (export_to_file ⟨c, key⟩ path failAt).2.2 = .error e) ∧
    (c.performJSON ⟨"GET", "/projects/" ++ key ++ "/metadata", none⟩ = .error e →
      (get_metadata ⟨c, key⟩).2 = .error e) ∧
    (∀ m : JValue,
      c.performEmpty ⟨"PUT", "/projects/" ++ key ++ "/metadata", some m⟩ = .error e →
      (set_metadata ⟨c, key⟩ m).2 = .error e) ∧
    (c.performJSON ⟨"GET", "/projects/" ++ key ++ "/permissions", none⟩ = .error e →
      (get_permissions ⟨c, key⟩).2 = .error e) ∧
    (∀ m : JValue,
      c.performEmpty ⟨"PUT", "/projects/" ++ key ++ "/permissions", some m⟩ = .error e →
      (set_permissions ⟨c, key⟩ m).2 = .error e) ∧
    (c.performJSON ⟨"GET", "/projects/" ++ key ++ "/datasets/", none⟩ = .error e →
      (list_datasets ⟨c, key⟩).2 = .error e) ∧
    (∀ n t pa fT fP : JValue,
      c.performJSON ⟨"POST", "/projects/" ++ key ++ "/datasets/",
        some (.obj [("name", n), ("projectKey", .str key), ("type", t),
          ("params", pa), ("formatType", fT), ("formatParams", fP)])⟩ = .error e →
      (create_dataset ⟨c, key⟩ n t pa fT fP).2 = .error e) ∧
    (c.performJSON ⟨"GET", "/projects/" ++ key ++ "/managedfolders/", none⟩ = .error e →
      (list_managed_folders ⟨c, key⟩).2 = .error e) ∧
    (∀ name : JValue,
      c.performJSON ⟨"POST", "/projects/" ++ key ++ "/managedfolders/",
        some (.obj [("name", name), ("projectKey", .str key)])⟩ = .error e →
      (create_managed_folder ⟨c, key⟩ name).2 = .error e) ∧
    (c.performJSON ⟨"GET", "/projects/" ++ key ++ "/jobs/", none⟩ = .error e →
      (list_jobs ⟨c, key⟩).2 = .error e) ∧
    (∀ d : JValue,
      c.performJSON ⟨"POST", "/projects/" ++ key ++ "/jobs/", some d⟩ = .error e →
      (start_job ⟨c, key⟩ d).2 = .error e) ∧
    (c.performJSON ⟨"GET", "/projects/" ++ key ++ "/apiservices/", none⟩ = .error e →
      (list_api_services ⟨c, key⟩).2 = .error e) ∧
    (c.performJSON ⟨"GET", "/projects/" ++ key ++ "/scenarios/", none⟩ = .error e →
      (list_scenarios ⟨c, key⟩).2 = .error e) := by
  refine ⟨fun h => h, fun h => h, fun path failAt h => ?_, fun h => h, fun m h => h,
    fun h => h, fun m h => h, fun h => h, fun n t pa fT fP h => ?_, fun h => h,
    fun name h => ?_, fun h => h, fun d h => ?_, fun h => h, fun h => h⟩
  · simp [export_to_file, h]
  · simp only [create_dataset, h]
  · simp only [create_managed_folder, h]
  · simp only [start_job, h]

/-- Witness for C7 at a concrete transport failing every call with errE. -/
theorem C7_witness :
    (delete ⟨errClient, "P"⟩).2 = .error errE ∧
    (get_export_stream ⟨errClient, "P"⟩).2 = .error errE ∧
    (export_to_file ⟨errClient, "P"⟩ "out.zip" none).2.2 = .error errE ∧
    (get_metadata ⟨errClient, "P"⟩).2 = .error errE ∧
    (set_metadata ⟨errClient, "P"⟩ (.obj [])).2 = .error errE ∧
    (get_permissions ⟨errClient, "P"⟩).2 = .error errE ∧
    (set_permissions ⟨errClient, "P"⟩ (.obj [])).2 = .error errE ∧
    (list_datasets ⟨errClient, "P"⟩).2 = .error errE ∧
    (create_dataset ⟨errClient, "P"⟩ (.str "d") (.str "t") (.obj []) .null (.obj [])).2 =
      .error errE ∧
    (list_managed_folders ⟨errClient, "P"⟩).2 = .error errE ∧
    (create_managed_folder ⟨errClient, "P"⟩ (.str "f")).2 = .error errE ∧
    (list_jobs ⟨errClient, "P"⟩).2 = .error errE ∧
    (start_job ⟨errClient, "P"⟩ (.obj [])).2 = .error errE ∧
    (list_api_services ⟨errClient, "P"⟩).2 = .error errE ∧
    (list_scenarios ⟨errClient, "P"⟩).2 = .error errE := by
  obtain ⟨h1, h2, h3, h4, h5, h6, h7, h8, h9, h10, h11, h12, h13, h14, h15⟩ :=
    C7_transport_errors_propagate errClient "P" errE
  exact ⟨h1 rfl, h2 rfl, h3 "out.zip" none rfl, h4 rfl, h5 (.obj []) rfl, h6 rfl,
    h7 (.obj []) rfl, h8 rfl, h9 (.str "d") (.str "t") (.obj []) .null (.obj []) rfl,
    h10 rfl, h11 (.str "f") rfl, h12 rfl, h13 (.obj []) rfl, h14 rfl, h15 rfl⟩

/-- C8: export_to_file opens (creating or truncating) the local file before
issuing the GET, so when the transport raises, the call propagates the error
unchanged yet leaves behind a created, empty, closed file at the path: the
local state is not unchanged on error. -/
theorem C8_export_error_leaves_truncated_file (c : DSSClient) (key path : String)
    (failAt : Option Nat) (e : DSSError) :
    c.performRaw ⟨"GET", "/projects/" ++ key ++ "/export", none⟩ = .error e →
    export_to_file ⟨c, key⟩ path failAt =
      ([⟨"GET", "/projects/" ++ key ++ "/export", none⟩],
        ⟨true, [], true⟩, .error e) := by
  intro h
  simp [export_to_file, h]

/-- Witness for C8 at a concrete transport failing the export GET. -/
theorem C8_witness :
    export_to_file ⟨errClient, "P"⟩ "out.zip" none =
      ([⟨"GET", "/projects/P/export", none⟩], ⟨true, [], true⟩, .error errE) :=
  C8_export_error_leaves_truncated_file errClient "P" "out.zip" none errE rfl

/-- C9: every DSSProject method is a pure function of the handle, whose own
fields (client and project key) it cannot change; every request URL in every
trace is built from the unchanged project key of the handle, and every handle
any method returns carries exactly the client and project key of the project
handle. -/
theorem C9_handle_fields_frame (p : DSSProject) :
    (delete p).1 = [⟨"DELETE", "/projects/" ++ p.project_key, none⟩] ∧
    (get_export_stream p).1 = [⟨"GET", "/projects/" ++ p.project_key ++ "/export", none⟩] ∧
    (∀ (path : String) (failAt : Option Nat), (export_to_file p path failAt).1 =
      [⟨"GET", "/projects/" ++ p.project_key ++ "/export", none⟩]) ∧
    (get_metadata p).1 = [⟨"GET", "/projects/" ++ p.project_key ++ "/metadata", none⟩] ∧
    (∀ m : JValue, (set_metadata p m).1 =
      [⟨"PUT", "/projects/" ++ p.project_key ++ "/metadata", some m⟩]) ∧
    (get_permissions p).1 =
      [⟨"GET", "/projects/" ++ p.project_key ++ "/permissions", none⟩] ∧
    (∀ m : JValue, (set_permissions p m).1 =
      [⟨"PUT", "/projects/" ++ p.project_key ++ "/permissions", some m⟩]) ∧
    (list_datasets p).1 = [⟨"GET", "/projects/" ++ p.project_key ++ "/datasets/", none⟩] ∧
    (∀ n t pa fT fP : JValue, (create_dataset p n t pa fT fP).1 =
      [⟨"POST", "/projects/" ++ p.project_key ++ "/datasets/",
        some (.obj [("name", n), ("projectKey", .str p.project_key), ("type", t),
          ("params", pa), ("formatType", fT), ("formatParams", fP)])⟩]) ∧
    (list_managed_folders p).1 =
      [⟨"GET", "/projects/" ++ p.project_key ++ "/managedfolders/", none⟩] ∧
    (∀ name : JValue, (create_managed_folder p name).1 =
      [⟨"POST", "/projects/" ++ p.project_key ++ "/managedfolders/",
        some (.obj [("name", name), ("projectKey", .str p.project_key)])⟩]) ∧
    (list_jobs p).1 = [⟨"GET", "/projects/" ++ p.project_key ++ "/jobs/", none⟩] ∧
    (∀ d : JValue, (start_job p d).1 =
      [⟨"POST", "/projects/" ++ p.project_key ++ "/jobs/", some d⟩]) ∧
    (list_api_services p).1 =
      [⟨"GET", "/projects/" ++ p.project_key ++ "/apiservices/", none⟩] ∧
    (list_scenarios p).1 = [⟨"GET", "/projects/" ++ p.project_key ++ "/scenarios/", none⟩] ∧
    (∀ v : JValue, get_dataset p v = ([], ⟨p.client, p.project_key, v⟩)) ∧
    (∀ v : JValue, get_managed_folder p v = ([], ⟨p.client, p.project_key, v⟩)) ∧
    (∀ v : JValue, get_job p v = ([], ⟨p.client, p.project_key, v⟩)) ∧
    (∀ v : JValue, get_scenario p v = ([], ⟨p.client, p.project_key, v⟩)) ∧
    (∀ v : JValue, get_api_service p v = ([], ⟨p.client, p.project_key, v⟩)) ∧
    (∀ (n t pa fT fP : JValue) (ds : DSSDataset),
      (create_dataset p n t pa fT fP).2 = .ok ds →
      ds.client = p.client ∧ ds.project_key = p.project_key) ∧
    (∀ (name : JValue) (fl : DSSManagedFolder),
      (create_managed_folder p name).2 = .ok fl →
      fl.client = p.client ∧ fl.project_key = p.project_key) ∧
    (∀ (d : JValue) (jb : DSSJob),
      (start_job p d).2 = .ok jb →
      jb.client = p.client ∧ jb.project_key = p.project_key) := by
  refine ⟨rfl, rfl, fun path failAt => rfl, rfl, fun m => rfl, rfl, fun m => rfl, rfl,
    fun n t pa fT fP => rfl, rfl, fun name => rfl, rfl, fun d => rfl, rfl, rfl,
    fun v => rfl, fun v => rfl, fun v => rfl, fun v => rfl, fun v => rfl,
    fun n t pa fT fP ds hds => ?_, fun name fl hfl => ?_, fun d jb hjb => ?_⟩
  · revert hds
    cases hj : p.client.performJSON ⟨"POST", "/projects/" ++ p.project_key ++ "/datasets/",
        some (.obj [("name", n), ("projectKey", .str p.project_key), ("type", t),
          ("params", pa), ("formatType", fT), ("formatParams", fP)])⟩ with
    | error e => simp [create_dataset, hj]
    | ok r =>
      simp only [create_dataset, hj, Except.ok.injEq]
      intro hds
      rw [← hds]
      exact ⟨rfl, rfl⟩
  · revert hfl
    cases hj : p.client.performJSON ⟨"POST", "/projects/" ++ p.project_key ++ "/managedfolders/",
        some (.obj [("name", name), ("projectKey", .str p.project_key)])⟩ with
    | error e => simp [create_managed_folder, hj]
    | ok r =>
      cases hg : r.get? "id" with
      | none => simp [create_managed_folder, hj, hg]
      | some v =>
        simp only [create_managed_folder, hj, hg, Except.ok.injEq]
        intro hfl
        rw [← hfl]
        exact ⟨rfl, rfl⟩
  · revert hjb
    cases hj : p.client.performJSON ⟨"POST", "/projects/" ++ p.project_key ++ "/jobs/",
        some d⟩ with
    | error e => simp [start_job, hj]
    | ok r =>
      cases hg : r.get? "id" with
      | none => simp [start_job, hj, hg]
      | some v =>
        simp only [start_job, hj, hg, Except.ok.injEq]
        intro hjb
        rw [← hjb]
        exact ⟨rfl, rfl⟩

/-- Witness for C9: the handles returned by the create operations at a
concrete succeeding transport carry the client and project key of the
project handle. -/
theorem C9_witness :
    ((⟨okClient, "P", .str "d"⟩ : DSSDataset).client = okClient ∧
      (⟨okClient, "P", .str "d"⟩ : DSSDataset).project_key = "P") ∧
    ((⟨okClient, "P", .str "F1"⟩ : DSSManagedFolder).client = okClient ∧
      (⟨okClient, "P", .str "F1"⟩ : DSSManagedFolder).project_key = "P") ∧
    ((⟨okClient, "P", .str "F1"⟩ : DSSJob).client = okClient ∧
      (⟨okClient, "P", .str "F1"⟩ : DSSJob).project_key = "P") := by
  have h := C9_handle_fields_frame ⟨okClient, "P"⟩
  have hds := h.2.2.2.2.2.2.2.2.2.2.2.2.2.2.2.2.2.2.2.2.1
  have hfl := h.2.2.2.2.2.2.2.2.2.2.2.2.2.2.2.2.2.2.2.2.2.1
  have hjb := h.2.2.2.2.2.2.2.2.2.2.2.2.2.2.2.2.2.2.2.2.2.2
  exact ⟨hds (.str "d") (.str "t") (.obj []) .null (.obj []) ⟨okClient, "P", .str "d"⟩ rfl,
    hfl (.str "f") ⟨okClient, "P", .str "F1"⟩ rfl,
    hjb (.obj []) ⟨okClient, "P", .str "F1"⟩ rfl⟩

/-- C10: when the successful JSON response to the managed-folder or job POST
lacks an "id" key, create_managed_folder and start_job fail with a lookup
(KeyError) error and return no handle; when "id" is present, the returned
handle holds exactly that value. -/
theorem C10_missing_id_key_error (c : DSSClient) (key : String) :
    (∀ name r : JValue,
      c.performJSON ⟨"POST", "/projects/" ++ key ++ "/managedfolders/",
        some (.obj [("name", name), ("projectKey", .str key)])⟩ = .ok r →
      r.get? "id" = none →
      (create_managed_folder ⟨c, key⟩ name).2 = .error (.keyError "id")) ∧
    (∀ name r v : JValue,
      c.performJSON ⟨"POST", "/projects/" ++ key ++ "/managedfolders/",
        some (.obj [("name", name), ("projectKey", .str key)])⟩ = .ok r →
      r.get? "id" = some v →
      (create_managed_folder ⟨c, key⟩ name).2 = .ok ⟨c, key, v⟩) ∧
    (∀ d r : JValue,
      c.performJSON ⟨"POST", "/projects/" ++ key ++ "/jobs/", some d⟩ = .ok r →
      r.get? "id" = none →
      (start_job ⟨c, key⟩ d).2 = .error (.keyError "id")) ∧
    (∀ d r v : JValue,
      c.performJSON ⟨"POST", "/projects/" ++ key ++ "/jobs/", some d⟩ = .ok r →
      r.get? "id" = some v →
      (start_job ⟨c, key⟩ d).2 = .ok ⟨c, key, v⟩) := by
  refine ⟨fun name r h1 h2 => ?_, fun name r v h1 h2 => ?_,
    fun d r h1 h2 => ?_, fun d r v h1 h2 => ?_⟩
  · simp only [create_managed_folder, h1, h2]
  · simp only [create_managed_folder, h1, h2]
  · simp only [start_job, h1, h2]
  · simp only [start_job, h1, h2]

/-- Witness for C10 at transports with and without an "id" in responses. -/
theorem C10_witness :
    (create_managed_folder ⟨noIdClient, "P"⟩ (.str "f")).2 = .error (.keyError "id") ∧
    (create_managed_folder ⟨okClient, "P"⟩ (.str "f")).2 = .ok ⟨okClient, "P", .str "F1"⟩ ∧
    (start_job ⟨noIdClient, "P"⟩ (.obj [])).2 = .error (.keyError "id") ∧
    (start_job ⟨okClient, "P"⟩ (.obj [])).2 = .ok ⟨okClient, "P", .str "F1"⟩ :=
  ⟨(C10_missing_id_key_error noIdClient "P").1 (.str "f")
      (.obj [("name", .str "x")]) rfl rfl,
   (C10_missing_id_key_error okClient "P").2.1 (.str "f")
      (.obj [("id", .str "F1")]) (.str "F1") rfl rfl,
   (C10_missing_id_key_error noIdClient "P").2.2.1 (.obj [])
      (.obj [("name", .str "x")]) rfl rfl,
   (C10_missing_id_key_error okClient "P").2.2.2 (.obj [])
      (.obj [("id", .str "F1")]) (.str "F1") rfl rfl⟩

end SpecClaims
